import Mathlib

/-!
Verification of the three JSONL utilities of the Embodied-RAG-Finetune
repository: the dataset splitter (`scripts/split_dataset.py`) and the two
per-record transformers (`scripts/transform_to_conversational.py`,
`scripts/transform_to_standard.py`).

Modelling conventions:
* A parsed JSON document is the inductive type `Json` below; JSON numbers
  are restricted to integers (the spec and both example datasets use only
  text fields, and no claim exercises fractional numbers).
* Python's `json.loads` is external library code; it is modelled as an
  abstract parameter `loads : String → Option Json`, `none` standing for
  a raised `json.JSONDecodeError`.  Concrete instantiations used in
  witnesses agree with `json.loads` on every input they are applied to.
* The global random generator of Python's `random` module is modelled by
  the structure `SplitRNG`: `seedFn` is `random.seed` (building a fresh
  generator state from the integer seed) and `randbelow` is
  `random._randbelow` as consumed by `random.shuffle`.  The Mersenne
  Twister itself is library code and is kept abstract; a concrete linear
  congruential instance `lcgRNG` is supplied for evaluation.
* Python exceptions that the scripts do not catch (`AttributeError` from
  `example.get` on a non-dict) are modelled with `Except String`.
* `str.strip()` is modelled by `pyStrip` below (stripping ASCII
  whitespace from both ends; the exotic Unicode whitespace Python
  additionally strips is not exercised by any claim).
-/

/-- A JSON value, as produced by `json.loads`.  Objects are association
lists with string keys; `json.loads` yields dictionaries whose keys are
unique (on duplicate keys it keeps the last value), so lookups below use
plain first-match association-list lookup. -/
inductive Json where
  | null : Json
  | bool (b : Bool) : Json
  | num (n : Int) : Json
  | str (s : String) : Json
  | arr (elems : List Json) : Json
  | obj (kvs : List (String × Json)) : Json

/-- Whether a JSON value is an object (a Python `dict`). -/
def Json.isObj : Json → Bool
  | .obj _ => true
  | _ => false

/-- The single-quote character, spelled by code point. -/
def squoteChar : Char := Char.ofNat 39

/-- The double-quote character, spelled by code point. -/
def dquoteChar : Char := Char.ofNat 34

/-- Escape one character of a Python string `repr`, for the chosen quote
character.  (Python additionally escapes unprintable characters as
hexadecimal sequences; no claim exercises those.) -/
def pyEscapeChar (q c : Char) : String :=
  if c = '\\' then "\\\\"
  else if c = q then "\\" ++ q.toString
  else if c = '\n' then "\\n"
  else if c = '\r' then "\\r"
  else if c = '\t' then "\\t"
  else c.toString

/-- Python `repr` of a string: single-quoted unless the string contains a
single quote and no double quote, with quote/backslash/control escapes. -/
def pyReprStr (s : String) : String :=
  let q : Char :=
    if s.contains squoteChar && !s.contains dquoteChar then dquoteChar
    else squoteChar
  q.toString ++ String.join (s.data.map (pyEscapeChar q)) ++ q.toString

mutual
/-- Python `repr` of a JSON value (as `json.loads` returns it): `repr` of
the corresponding `None`/`bool`/`int`/`str`/`list`/`dict`. -/
def pyRepr : Json → String
  | .null => "None"
  | .bool true => "True"
  | .bool false => "False"
  | .num n => toString n
  | .str s => pyReprStr s
  | .arr elems => "[" ++ String.intercalate ", " (pyReprList elems) ++ "]"
  | .obj kvs => "\x7b" ++ String.intercalate ", " (pyReprKVs kvs) ++ "\x7d"

/-- `repr` of each element of a list. -/
def pyReprList : List Json → List String
  | [] => []
  | v :: rest => pyRepr v :: pyReprList rest

/-- `repr` of each `key: value` entry of a dict. -/
def pyReprKVs : List (String × Json) → List String
  | [] => []
  | (k, v) :: rest => (pyReprStr k ++ ": " ++ pyRepr v) :: pyReprKVs rest
end

/-- Python `str` of a JSON value, as interpolated by an f-string: the
string itself for `str`, `repr` otherwise. -/
def pyStr : Json → String
  | .str s => s
  | v => pyRepr v

/-- `str(example.get(key, ''))`: look the key up in the record, default to
the empty string when absent, and convert the value as an f-string does. -/
def getField (kvs : List (String × Json)) (key : String) : String :=
  pyStr ((List.lookup key kvs).getD (.str ""))

/-- `transform_example` of `transform_to_conversational.py`: on a dict it
builds the two-message conversation; on any other value `example.get`
raises `AttributeError`, which the script does not catch. -/
def conv_transform_example (ex : Json) : Except String Json :=
  match ex with
  | .obj kvs =>
      let user_message :=
        "Query: " ++ getField kvs "query" ++ "\n" ++
        "Context: " ++ getField kvs "context" ++ "\n" ++
        "Instruction: From the provided context, please choose exactly one option and respond with the name exactly as it appears."
      .ok (.obj [("messages", .arr
        [ .obj [("role", .str "user"), ("content", .str user_message)],
          .obj [("role", .str "assistant"),
                ("content", .str (getField kvs "response"))] ])])
  | _ => .error "AttributeError"

/-- `transform_example` of `transform_to_standard.py`: on a dict it builds
the flattened text record; otherwise `AttributeError`, uncaught. -/
def std_transform_example (ex : Json) : Except String Json :=
  match ex with
  | .obj kvs =>
      let text :=
        "Query: " ++ getField kvs "query" ++ "\n" ++
        "Context: " ++ getField kvs "context" ++ "\n" ++
        "Answer: " ++ getField kvs "response"
      .ok (.obj [("text", .str text)])
  | _ => .error "AttributeError"

/-- `line.strip()`: drop leading and trailing whitespace. -/
def pyStrip (s : String) : String :=
  ⟨((s.data.dropWhile Char.isWhitespace).reverse.dropWhile
      Char.isWhitespace).reverse⟩

/-- `transform_file` of both transformer scripts, parameterised by the
per-record transformation `tx` and by `loads`.  Input is the list of raw
lines of the input file.  Returns the records written to the output file
in order, paired with `some err` when an uncaught exception aborted the
loop (lines written before the abort remain written) and `none` when the
loop completed.  Blank lines, and lines on which `loads` raises
`json.JSONDecodeError`, are skipped via `continue`. -/
def transform_file (tx : Json → Except String Json)
    (loads : String → Option Json) : List String → List Json × Option String
  | [] => ([], none)
  | line :: rest =>
      let l := pyStrip line
      if l = "" then transform_file tx loads rest
      else
        match loads l with
        | none => transform_file tx loads rest
        | some ex =>
            match tx ex with
            | .error err => ([], some err)
            | .ok t =>
                let r := transform_file tx loads rest
                (t :: r.1, r.2)

/-- The non-blank input lines, stripped: `[line.strip() for line in f if
line.strip()]` of the splitter, and the lines surviving the blank-line
`continue` of the transformers. -/
def strippedLines (lines : List String) : List String :=
  (lines.map pyStrip).filter (fun l => l ≠ "")

/-- The records of the valid non-blank lines, in input order: exactly the
values the transformers pass to `transform_example` after the two skip
branches. -/
def validRecords (loads : String → Option Json) (lines : List String) :
    List Json :=
  (strippedLines lines).filterMap loads

/-- Transform every record, failing if any single transformation fails;
the Option-monad sequencing preserves order. -/
def transformAll (tx : Json → Except String Json) :
    List Json → Option (List Json)
  | [] => some []
  | v :: rest =>
      match tx v with
      | .error _ => none
      | .ok t => (transformAll tx rest).map (fun r => t :: r)

/-- The interface the splitter uses from Python's `random` module:
`seedFn` is `random.seed(seed)` (a fresh generator state computed from the
integer seed alone), `randbelow g n` is `random._randbelow(n)` run in
state `g`, returning the drawn index and the advanced state. -/
structure SplitRNG (σ : Type) where
  seedFn : Nat → σ
  randbelow : σ → Nat → Nat × σ

/-- The parallel assignment `x[i], x[j] = x[j], x[i]` of `random.shuffle`.
Both indices are in range whenever `randbelow` honours its contract; the
out-of-range fallback keeps the function total. -/
def listSwap {α : Type} (l : List α) (i j : Nat) : List α :=
  match l[i]?, l[j]? with
  | some a, some b => (l.set i b).set j a
  | _, _ => l

/-- The loop of `random.shuffle`: `for i in reversed(range(1, len(x))):
j = _randbelow(i + 1); x[i], x[j] = x[j], x[i]`.  The first argument is
the current loop variable `i`; `0` means the loop is over (the range stops
at `1`). -/
def shuffleLoop {σ α : Type} (rb : σ → Nat → Nat × σ) :
    Nat → List α → σ → List α × σ
  | 0, x, g => (x, g)
  | Nat.succ k, x, g =>
      let p := rb g (k + 2)
      shuffleLoop rb k (listSwap x (k + 1) p.1) p.2

/-- `random.shuffle(x)` in generator state `g`. -/
def shuffle {σ α : Type} (rb : σ → Nat → Nat × σ) (x : List α) (g : σ) :
    List α × σ :=
  shuffleLoop rb (x.length - 1) x g

/-- The parsing list comprehension `[json.loads(line) for line in lines]`
of the splitter: the records in order, or `none` when any line raises
`json.JSONDecodeError` (the comprehension evaluates left to right and the
first failure aborts it). -/
def parseAll (loads : String → Option Json) : List String → Option (List Json)
  | [] => some []
  | l :: rest =>
      match loads l with
      | none => none
      | some v => (parseAll loads rest).map (fun r => v :: r)

/-- `split_jsonl` of `scripts/split_dataset.py`, up to the two
`write_jsonl` calls (modelled separately in `split_jsonl_run`).  The test
ratio is the exact nonnegative rational `testNum / testDen`; Python's
`int()` truncation of the nonnegative product `n_total * test_ratio` is
natural-number division `n_total * testNum / testDen`.  `g0` is the state
of the module-level generator before the run; `random.seed(seed)`
replaces it.  Returns `(train_data, test_data)` or the
`json.JSONDecodeError` raised by the parsing list comprehension. -/
def split_jsonl {σ : Type} (R : SplitRNG σ) (loads : String → Option Json)
    (lines : List String) (testNum testDen seed : Nat) (g0 : σ) :
    Except String (List Json × List Json) :=
  let stripped := strippedLines lines
  match parseAll loads stripped with
  | none => .error "JSONDecodeError"
  | some data =>
      let _ := g0
      let g := R.seedFn seed
      let shuffled := (shuffle R.randbelow data g).1
      let n_total := shuffled.length
      let n_test := n_total * testNum / testDen
      let test_data := shuffled.take n_test
      let train_data := shuffled.drop n_test
      .ok (train_data, test_data)

/-- One full run of the splitter at the file level: the list of
`(path, records)` writes performed by `write_jsonl`, paired with the
process outcome.  The parsing comprehension runs before either output
file is opened, so a parse failure performs no write at all. -/
def split_jsonl_run {σ : Type} (R : SplitRNG σ)
    (loads : String → Option Json) (lines : List String)
    (testNum testDen seed : Nat) (g0 : σ) (train_file test_file : String) :
    List (String × List Json) × Except String Unit :=
  match split_jsonl R loads lines testNum testDen seed g0 with
  | .error e => ([], .error e)
  | .ok (train_data, test_data) =>
      ([(train_file, train_data), (test_file, test_data)], .ok ())

/-- Advance a linear congruential generator state. -/
def lcgNext (g : Nat) : Nat := (g * 1103515245 + 12345) % 2147483648

/-- A concrete generator for evaluating the splitter on closed inputs: a
linear congruential generator satisfying the `randbelow` contract (the
drawn index is `< n` whenever `n > 0`). -/
def lcgRNG : SplitRNG Nat where
  seedFn s := lcgNext s
  randbelow g n := (if n = 0 then 0 else g % n, lcgNext g)

/-- A concrete `loads` for closed witnesses and counterexamples.  It
agrees with `json.loads` on every string it is applied to below:
`json.loads` parses the two integer literals to Python ints, parses the
object literal to the corresponding dict, and raises `JSONDecodeError` on
the non-JSON lines used (such as `notjson` and the empty suffix cases). -/
def loadsDemo (s : String) : Option Json :=
  if s = "0" then some (.num 0)
  else if s = "5" then some (.num 5)
  else if s = "\x7b\"query\": \"Where is the sofa?\", \"context\": \"Area 5\", \"response\": \"area_5\"\x7d" then
    some (.obj [("query", .str "Where is the sofa?"),
                ("context", .str "Area 5"),
                ("response", .str "area_5")])
  else if s = "\x7b\"query\": \"q2\"\x7d" then
    some (.obj [("query", .str "q2")])
  else none

/-- Replacing position `k` (holding `b`) by `a` and carrying `b` to the
front permutes putting `a` at the front directly. -/
theorem cons_set_perm {α : Type} :
    ∀ (xs : List α) (k : Nat) (a b : α), xs[k]? = some b →
      List.Perm (b :: xs.set k a) (a :: xs)
  | [], _, _, _, h => by simp at h
  | x :: t, 0, a, b, h => by
      simp at h
      subst h
      exact List.Perm.swap a x t
  | x :: t, Nat.succ k, a, b, h => by
      simp at h
      have ih := cons_set_perm t k a b h
      show List.Perm (b :: x :: t.set k a) (a :: x :: t)
      exact (List.Perm.swap x b _).trans ((ih.cons x).trans (List.Perm.swap a x t))

/-- Writing `b` at `i` and `a` at `j`, where `a` and `b` are the values
at `i` and `j`, permutes the list. -/
theorem set_set_perm {α : Type} :
    ∀ (l : List α) (i j : Nat) (a b : α), l[i]? = some a → l[j]? = some b →
      List.Perm ((l.set i b).set j a) l
  | [], _, _, _, _, hi, _ => by simp at hi
  | x :: t, 0, 0, a, b, hi, hj => by
      simp at hi hj
      subst hi
      subst hj
      exact List.Perm.refl _
  | x :: t, 0, Nat.succ j, a, b, hi, hj => by
      simp at hi hj
      subst hi
      exact cons_set_perm t j x b hj
  | x :: t, Nat.succ i, 0, a, b, hi, hj => by
      simp at hi hj
      subst hj
      exact cons_set_perm t i x a hi
  | x :: t, Nat.succ i, Nat.succ j, a, b, hi, hj => by
      simp at hi hj
      exact (set_set_perm t i j a b hi hj).cons x

/-- The parallel swap of `random.shuffle` permutes the list. -/
theorem listSwap_perm {α : Type} (l : List α) (i j : Nat) :
    List.Perm (listSwap l i j) l := by
  unfold listSwap
  cases hi : l[i]? with
  | none => exact List.Perm.refl l
  | some a =>
      cases hj : l[j]? with
      | none => exact List.Perm.refl l
      | some b => exact set_set_perm l i j a b hi hj

/-- Every pass of the shuffle loop permutes the list. -/
theorem shuffleLoop_perm {σ α : Type} (rb : σ → Nat → Nat × σ) :
    ∀ (n : Nat) (x : List α) (g : σ),
      List.Perm (shuffleLoop rb n x g).1 x
  | 0, _, _ => List.Perm.refl _
  | Nat.succ k, x, g => by
      have ih := shuffleLoop_perm rb k
        (listSwap x (k + 1) (rb g (k + 2)).1) (rb g (k + 2)).2
      exact ih.trans (listSwap_perm x (k + 1) (rb g (k + 2)).1)

/-- `random.shuffle` permutes its input. -/
theorem shuffle_perm {σ α : Type} (rb : σ → Nat → Nat × σ)
    (x : List α) (g : σ) : List.Perm (shuffle rb x g).1 x :=
  shuffleLoop_perm rb (x.length - 1) x g

/-- `random.shuffle` preserves length. -/
theorem shuffle_length {σ α : Type} (rb : σ → Nat → Nat × σ)
    (x : List α) (g : σ) : (shuffle rb x g).1.length = x.length :=
  (shuffle_perm rb x g).length_eq

/-- One failing line aborts the whole parsing comprehension. -/
theorem parseAll_eq_none {loads : String → Option Json} :
    ∀ {ls : List String} {l : String}, l ∈ ls → loads l = none →
      parseAll loads ls = none := by
  intro ls
  induction ls with
  | nil => intro l h; cases h
  | cons x rest ih =>
      intro l hmem hnone
      cases hmem with
      | head => simp [parseAll, hnone]
      | tail _ hmem =>
          unfold parseAll
          cases hx : loads x with
          | none => rfl
          | some v => rw [ih hmem hnone]; rfl

/-- The comprehension succeeds exactly when every line parses. -/
theorem parseAll_isSome_iff {loads : String → Option Json} :
    ∀ (ls : List String),
      (parseAll loads ls).isSome ↔ ∀ l ∈ ls, (loads l).isSome := by
  intro ls
  induction ls with
  | nil => simp [parseAll]
  | cons x rest ih =>
      unfold parseAll
      cases hx : loads x with
      | none => simp [hx]
      | some v =>
          cases hr : parseAll loads rest with
          | none => simp [hr, hx] at ih ⊢; exact ih
          | some data => simp [hr, hx] at ih ⊢; exact ih

/-- On a successful parse, `split_jsonl` returns the shuffled records
split at `n_total * testNum / testDen`: test first, train the rest. -/
theorem split_jsonl_ok_eq {σ : Type} (R : SplitRNG σ)
    (loads : String → Option Json) (lines : List String)
    (testNum testDen seed : Nat) (g0 : σ) (data : List Json)
    (h : parseAll loads (strippedLines lines) = some data) :
    split_jsonl R loads lines testNum testDen seed g0 =
      .ok
        (((shuffle R.randbelow data (R.seedFn seed)).1).drop
           ((shuffle R.randbelow data (R.seedFn seed)).1.length * testNum /
             testDen),
         ((shuffle R.randbelow data (R.seedFn seed)).1).take
           ((shuffle R.randbelow data (R.seedFn seed)).1.length * testNum /
             testDen)) := by
  simp [split_jsonl, h]

/-- `transform_file` reaches exactly the records of the valid non-blank
lines, in order; if each of them transforms without error, the loop
finishes and writes exactly their transforms. -/
theorem transform_file_of_transformAll (tx : Json → Except String Json)
    (loads : String → Option Json) :
    ∀ (lines : List String) (outs : List Json),
      transformAll tx (validRecords loads lines) = some outs →
      transform_file tx loads lines = (outs, none) := by
  intro lines
  induction lines with
  | nil =>
      intro outs h
      simp [validRecords, strippedLines, transformAll] at h
      simp [transform_file, ← h]
  | cons line rest ih =>
      intro outs h
      by_cases hb : pyStrip line = ""
      · have hv : validRecords loads (line :: rest) = validRecords loads rest := by
          simp [validRecords, strippedLines, hb]
        rw [hv] at h
        simpa [transform_file, hb] using ih outs h
      · cases hl : loads (pyStrip line) with
        | none =>
            have hv : validRecords loads (line :: rest) = validRecords loads rest := by
              simp [validRecords, strippedLines, hb, hl]
            rw [hv] at h
            simpa [transform_file, hb, hl] using ih outs h
        | some v =>
            have hv : validRecords loads (line :: rest) =
                v :: validRecords loads rest := by
              simp [validRecords, strippedLines, hb, hl]
            rw [hv] at h
            unfold transformAll at h
            cases htx : tx v with
            | error e => rw [htx] at h; cases h
            | ok t =>
                rw [htx] at h
                cases hrest : transformAll tx (validRecords loads rest) with
                | none => rw [hrest] at h; cases h
                | some outs0 =>
                    rw [hrest] at h
                    simp at h
                    subst h
                    simp [transform_file, hb, hl, htx, ih outs0 hrest]

/-- The raw input line of the end-to-end example of the spec. -/
def sofaLine : String :=
  "\x7b\"query\": \"Where is the sofa?\", \"context\": \"Area 5\", \"response\": \"area_5\"\x7d"

/-- The record `json.loads` yields for `sofaLine`. -/
def sofaRecord : Json :=
  .obj [("query", .str "Where is the sofa?"),
        ("context", .str "Area 5"),
        ("response", .str "area_5")]

/-- A second raw object line, with only a `query` field. -/
def q2Line : String := "\x7b\"query\": \"q2\"\x7d"

/-- The conversational record the spec prescribes when the substituted
field texts are `q`, `c` and `r`: exactly two messages, the user template
and the verbatim assistant response. -/
def convMessagesShape (q c r : String) : Json :=
  .obj [("messages", .arr
    [ .obj [("role", .str "user"),
            ("content", .str ("Query: " ++ q ++ "\n" ++
              "Context: " ++ c ++ "\n" ++
              "Instruction: From the provided context, please choose exactly one option and respond with the name exactly as it appears."))],
      .obj [("role", .str "assistant"), ("content", .str r)] ])]

/-- The standard record the spec prescribes when the substituted field
texts are `q`, `c` and `r`. -/
def stdTextShape (q c r : String) : Json :=
  .obj [("text", .str ("Query: " ++ q ++ "\n" ++
    "Context: " ++ c ++ "\n" ++
    "Answer: " ++ r))]

/-- C4: on any JSON object record the conversational transformer produces
exactly the two-message structure, the user content being the literal
template with the record's `query`/`context` texts substituted and the
assistant content being the record's `response` text verbatim, each
defaulting to the empty string when the key is absent. -/
theorem conv_transform_example_spec (kvs : List (String × Json))
    (q c r : String)
    (hq : getField kvs "query" = q) (hc : getField kvs "context" = c)
    (hr : getField kvs "response" = r) :
    conv_transform_example (.obj kvs) = .ok (convMessagesShape q c r)
    ∧ (List.lookup "query" kvs = none → q = "")
    ∧ (List.lookup "context" kvs = none → c = "")
    ∧ (List.lookup "response" kvs = none → r = "")
    ∧ (∀ s, List.lookup "response" kvs = some (.str s) → r = s) := by
  subst hq hc hr
  refine ⟨rfl, ?_, ?_, ?_, ?_⟩
  · intro h; simp [getField, h, pyStr]
  · intro h; simp [getField, h, pyStr]
  · intro h; simp [getField, h, pyStr]
  · intro s h; simp [getField, h, pyStr]

/-- C4 witness: the transformer evaluated on a record with `context` and
`response` absent, then on the spec's end-to-end example record. -/
theorem conv_transform_example_spec_witness :
    conv_transform_example (.obj [("query", Json.str "q2")]) =
      .ok (convMessagesShape "q2" "" "")
    ∧ conv_transform_example sofaRecord =
      .ok (convMessagesShape "Where is the sofa?" "Area 5" "area_5") :=
  ⟨(conv_transform_example_spec [("query", Json.str "q2")] "q2" "" ""
      rfl rfl rfl).1,
   (conv_transform_example_spec
      [("query", .str "Where is the sofa?"), ("context", .str "Area 5"),
       ("response", .str "area_5")]
      "Where is the sofa?" "Area 5" "area_5" rfl rfl rfl).1⟩

/-- C5: on any JSON object record the standard transformer produces
exactly the flat-text record with `query`, `context` and `response`
substituted, each defaulting to the empty string when the key is absent,
without any error. -/
theorem std_transform_example_spec (kvs : List (String × Json))
    (q c r : String)
    (hq : getField kvs "query" = q) (hc : getField kvs "context" = c)
    (hr : getField kvs "response" = r) :
    std_transform_example (.obj kvs) = .ok (stdTextShape q c r)
    ∧ (List.lookup "query" kvs = none → q = "")
    ∧ (List.lookup "context" kvs = none → c = "")
    ∧ (List.lookup "response" kvs = none → r = "") := by
  subst hq hc hr
  refine ⟨rfl, ?_, ?_, ?_⟩
  all_goals intro h; simp [getField, h, pyStr]

/-- C5 witness: the standard transformer on a record missing `context`
and `response`, and on the spec's end-to-end example record. -/
theorem std_transform_example_spec_witness :
    std_transform_example (.obj [("query", Json.str "q2")]) =
      .ok (stdTextShape "q2" "" "")
    ∧ std_transform_example sofaRecord =
      .ok (stdTextShape "Where is the sofa?" "Area 5" "area_5") :=
  ⟨(std_transform_example_spec [("query", Json.str "q2")] "q2" "" ""
      rfl rfl rfl).1,
   (std_transform_example_spec
      [("query", .str "Where is the sofa?"), ("context", .str "Area 5"),
       ("response", .str "area_5")]
      "Where is the sofa?" "Area 5" "area_5" rfl rfl rfl).1⟩

/-- C1: whenever the splitter succeeds, the multiset union of its train
and test outputs is exactly the parsed input dataset, and their lengths
sum to the input length: no record duplicated, none dropped. -/
theorem split_train_test_partition {σ : Type} (R : SplitRNG σ)
    (loads : String → Option Json) (lines : List String)
    (testNum testDen seed : Nat) (g0 : σ) (data train test : List Json)
    (hp : parseAll loads (strippedLines lines) = some data)
    (hok : split_jsonl R loads lines testNum testDen seed g0 =
      .ok (train, test)) :
    List.Perm (train ++ test) data ∧
      train.length + test.length = data.length := by
  rw [split_jsonl_ok_eq R loads lines testNum testDen seed g0 data hp]
    at hok
  simp only [Except.ok.injEq, Prod.mk.injEq] at hok
  obtain ⟨h1, h2⟩ := hok
  subst h1
  subst h2
  have hperm := shuffle_perm R.randbelow data (R.seedFn seed)
  constructor
  · have h3 :
        List.Perm
          (((shuffle R.randbelow data (R.seedFn seed)).1).take
              ((shuffle R.randbelow data (R.seedFn seed)).1.length *
                testNum / testDen) ++
            ((shuffle R.randbelow data (R.seedFn seed)).1).drop
              ((shuffle R.randbelow data (R.seedFn seed)).1.length *
                testNum / testDen))
          data := by
      rw [List.take_append_drop]
      exact hperm
    exact List.perm_append_comm.trans h3
  · have hlen := hperm.length_eq
    rw [List.length_drop, List.length_take]
    omega

/-- C1 witness: a two-record run of the splitter at ratio 1/2. -/
theorem split_train_test_partition_witness :
    List.Perm ([Json.num 5] ++ [sofaRecord]) [sofaRecord, Json.num 5] ∧
      ([Json.num 5] : List Json).length + ([sofaRecord] : List Json).length =
        ([sofaRecord, Json.num 5] : List Json).length :=
  split_train_test_partition lcgRNG loadsDemo [sofaLine, "5"] 1 2 42 0
    [sofaRecord, Json.num 5] [Json.num 5] [sofaRecord] rfl rfl

/-- C2: the splitter is a deterministic function of the input lines, the
seed and the ratio — `random.seed(seed)` replaces whatever state the
module generator held before the run, so two runs with the same input,
seed and ratio give identical train and test outputs. -/
theorem split_jsonl_deterministic {σ : Type} (R : SplitRNG σ)
    (loads : String → Option Json) (lines : List String)
    (testNum testDen seed : Nat) (g0 g1 : σ) :
    split_jsonl R loads lines testNum testDen seed g0 =
      split_jsonl R loads lines testNum testDen seed g1 := rfl

/-- C3: on a successful parse the splitter takes the first
`n_test = floor(n_total * test_ratio)` records of the shuffled sequence
as the test set and the remaining `n_total - n_test` (in shuffled order)
as the train set; the truncating division implementing `int(...)` is the
rational floor. -/
theorem split_floor_take_drop {σ : Type} (R : SplitRNG σ)
    (loads : String → Option Json) (lines : List String)
    (testNum testDen seed : Nat) (g0 : σ) (data : List Json)
    (hp : parseAll loads (strippedLines lines) = some data) :
    split_jsonl R loads lines testNum testDen seed g0 =
      .ok
        (((shuffle R.randbelow data (R.seedFn seed)).1).drop
           ((shuffle R.randbelow data (R.seedFn seed)).1.length * testNum /
             testDen),
         ((shuffle R.randbelow data (R.seedFn seed)).1).take
           ((shuffle R.randbelow data (R.seedFn seed)).1.length * testNum /
             testDen))
    ∧ (shuffle R.randbelow data (R.seedFn seed)).1.length * testNum /
        testDen =
        Nat.floor (((shuffle R.randbelow data (R.seedFn seed)).1.length : ℚ) *
          ((testNum : ℚ) / (testDen : ℚ))) := by
  refine ⟨split_jsonl_ok_eq R loads lines testNum testDen seed g0 data hp, ?_⟩
  have h2 :
      ((shuffle R.randbelow data (R.seedFn seed)).1.length : ℚ) *
          ((testNum : ℚ) / (testDen : ℚ)) =
        (((shuffle R.randbelow data (R.seedFn seed)).1.length * testNum :
            Nat) : ℚ) / (testDen : ℚ) := by
    push_cast
    ring
  rw [h2, Nat.floor_div_eq_div]

/-- C3 witness: the two-record run at ratio 1/2 splits one record to test
and one to train. -/
theorem split_floor_take_drop_witness :
    split_jsonl lcgRNG loadsDemo [sofaLine, "5"] 1 2 42 0 =
      .ok ([Json.num 5], [sofaRecord]) :=
  (split_floor_take_drop lcgRNG loadsDemo [sofaLine, "5"] 1 2 42 0
      [sofaRecord, Json.num 5] rfl).1.trans rfl

/-- C7: if any non-blank line fails to parse, the splitter run aborts
with the parse error and performs no file write at all — the parsing
comprehension runs before either output file is opened. -/
theorem split_parse_failure_no_write {σ : Type} (R : SplitRNG σ)
    (loads : String → Option Json) (lines : List String)
    (testNum testDen seed : Nat) (g0 : σ) (train_file test_file l : String)
    (hl : l ∈ strippedLines lines) (hn : loads l = none) :
    split_jsonl_run R loads lines testNum testDen seed g0
        train_file test_file =
      ([], .error "JSONDecodeError") := by
  simp [split_jsonl_run, split_jsonl, parseAll_eq_none hl hn]

/-- C7 witness: a run on a single malformed line writes nothing. -/
theorem split_parse_failure_no_write_witness :
    split_jsonl_run lcgRNG loadsDemo ["notjson"] 1 5 42 0
        "data/retrieval_qa_train.jsonl" "data/retrieval_qa_test.jsonl" =
      ([], .error "JSONDecodeError") :=
  split_parse_failure_no_write lcgRNG loadsDemo ["notjson"] 1 5 42 0
    "data/retrieval_qa_train.jsonl" "data/retrieval_qa_test.jsonl"
    "notjson" (by decide) rfl

/-- C8 counterexample: the line `5` is valid JSON but not a JSON object,
yet the splitter succeeds and passes the bare number through — it never
checks that parsed values are objects. -/
theorem split_accepts_nonobject_cex :
    loadsDemo "5" = some (Json.num 5) ∧ Json.isObj (Json.num 5) = false ∧
      split_jsonl lcgRNG loadsDemo ["5"] 1 5 42 0 =
        .ok ([Json.num 5], []) :=
  ⟨rfl, rfl, rfl⟩

/-- C8 (amended): the splitter fails with a parse error exactly when some
non-blank line fails to parse as JSON; a line parsing to a non-object
JSON value is accepted and passed through. -/
theorem split_success_iff_parse {σ : Type} (R : SplitRNG σ)
    (loads : String → Option Json) (lines : List String)
    (testNum testDen seed : Nat) (g0 : σ) :
    (∃ p, split_jsonl R loads lines testNum testDen seed g0 = .ok p) ↔
      ∀ l ∈ strippedLines lines, (loads l).isSome := by
  rw [← parseAll_isSome_iff]
  constructor
  · rintro ⟨p, hp⟩
    cases h : parseAll loads (strippedLines lines) with
    | none => simp [split_jsonl, h] at hp
    | some data => simp [h]
  · intro h
    cases hh : parseAll loads (strippedLines lines) with
    | none => rw [hh] at h; simp at h
    | some data =>
        exact ⟨_, split_jsonl_ok_eq R loads lines testNum testDen seed g0
          data hh⟩

/-- C8 (amended) witness: the non-object line `5` parses, so the splitter
succeeds on it. -/
theorem split_success_iff_parse_witness :
    ∃ p, split_jsonl lcgRNG loadsDemo ["5"] 1 5 42 0 = .ok p :=
  (split_success_iff_parse lcgRNG loadsDemo ["5"] 1 5 42 0).mpr (by decide)

/-- C9: ratio `0` gives an empty test set, ratio `1` gives an empty train
set, and an empty input gives two empty outputs with no error, for any
ratio. -/
theorem split_ratio_boundary {σ : Type} (R : SplitRNG σ)
    (loads : String → Option Json) (lines : List String) (seed : Nat)
    (g0 : σ) :
    (∀ train test,
        split_jsonl R loads lines 0 1 seed g0 = .ok (train, test) →
          test = [])
    ∧ (∀ train test,
        split_jsonl R loads lines 1 1 seed g0 = .ok (train, test) →
          train = [])
    ∧ (∀ testNum testDen,
        split_jsonl R loads [] testNum testDen seed g0 = .ok ([], [])) := by
  refine ⟨?_, ?_, ?_⟩
  · intro train test hok
    cases hp : parseAll loads (strippedLines lines) with
    | none => simp [split_jsonl, hp] at hok
    | some data =>
        rw [split_jsonl_ok_eq R loads lines 0 1 seed g0 data hp] at hok
        simp only [Except.ok.injEq, Prod.mk.injEq] at hok
        simpa using hok.2.symm
  · intro train test hok
    cases hp : parseAll loads (strippedLines lines) with
    | none => simp [split_jsonl, hp] at hok
    | some data =>
        rw [split_jsonl_ok_eq R loads lines 1 1 seed g0 data hp] at hok
        simp only [Except.ok.injEq, Prod.mk.injEq] at hok
        have := hok.1
        simpa [List.drop_length] using this.symm
  · intro testNum testDen
    simp [split_jsonl, strippedLines, parseAll, shuffle, shuffleLoop]

/-- C9 witness: a one-record input at ratio `0` and at ratio `1`, and the
empty input at the default ratio. -/
theorem split_ratio_boundary_witness :
    (([] : List Json) = []) ∧ (([] : List Json) = []) ∧
      split_jsonl lcgRNG loadsDemo [] 1 5 42 0 = .ok ([], []) :=
  ⟨(split_ratio_boundary lcgRNG loadsDemo [sofaLine] 42 0).1
      [sofaRecord] [] rfl,
   (split_ratio_boundary lcgRNG loadsDemo [sofaLine] 42 0).2.1
      [] [sofaRecord] rfl,
   (split_ratio_boundary lcgRNG loadsDemo [] 42 0).2.2 1 5⟩

/-- C6 counterexample: the line `0` is valid JSON (so it is not skipped),
but `transform_example` raises `AttributeError` on the parsed integer, so
the run aborts with no output instead of completing successfully. -/
theorem transform_file_nonobject_abort_cex :
    loadsDemo "0" = some (Json.num 0) ∧
      transform_file conv_transform_example loadsDemo ["0"] =
        ([], some "AttributeError") ∧
      transform_file std_transform_example loadsDemo ["0"] =
        ([], some "AttributeError") :=
  ⟨rfl, rfl, rfl⟩

/-- C6 (amended): both transformers skip blank lines and lines that are
not valid JSON and continue; provided every successfully parsed value
transforms without error (equivalently, is a JSON object), the run
completes successfully and the output records are exactly the transforms
of the valid non-blank lines, in original input order. -/
theorem transform_file_skip_and_order (loads : String → Option Json)
    (lines : List String) (outsC outsS : List Json)
    (hC : transformAll conv_transform_example (validRecords loads lines) =
      some outsC)
    (hS : transformAll std_transform_example (validRecords loads lines) =
      some outsS) :
    transform_file conv_transform_example loads lines = (outsC, none)
    ∧ transform_file std_transform_example loads lines = (outsS, none) :=
  ⟨transform_file_of_transformAll conv_transform_example loads lines
      outsC hC,
   transform_file_of_transformAll std_transform_example loads lines
      outsS hS⟩

/-- C6 (amended) witness: an input with a blank line and a malformed line
between two valid records; both are skipped and the two records are
transformed in order. -/
theorem transform_file_skip_and_order_witness :
    transform_file conv_transform_example loadsDemo
        [sofaLine, "", "notjson", q2Line] =
      ([convMessagesShape "Where is the sofa?" "Area 5" "area_5",
        convMessagesShape "q2" "" ""], none)
    ∧ transform_file std_transform_example loadsDemo
        [sofaLine, "", "notjson", q2Line] =
      ([stdTextShape "Where is the sofa?" "Area 5" "area_5",
        stdTextShape "q2" "" ""], none) :=
  transform_file_skip_and_order loadsDemo [sofaLine, "", "notjson", q2Line]
    [convMessagesShape "Where is the sofa?" "Area 5" "area_5",
     convMessagesShape "q2" "" ""]
    [stdTextShape "Where is the sofa?" "Area 5" "area_5",
     stdTextShape "q2" "" ""]
    rfl rfl

/-- C10: a non-blank line whose content is valid JSON but not a JSON
object is not skipped — the skip branch catches only
`json.JSONDecodeError` — and the per-record transformation's field access
fails, aborting the run of either transformer with the uncaught
`AttributeError`. -/
theorem transform_nonobject_uncaught (loads : String → Option Json)
    (line : String) (rest : List String) (v : Json)
    (hb : pyStrip line ≠ "") (hl : loads (pyStrip line) = some v)
    (hv : Json.isObj v = false) :
    conv_transform_example v = .error "AttributeError"
    ∧ std_transform_example v = .error "AttributeError"
    ∧ transform_file conv_transform_example loads (line :: rest) =
        ([], some "AttributeError")
    ∧ transform_file std_transform_example loads (line :: rest) =
        ([], some "AttributeError") := by
  have hc : conv_transform_example v = .error "AttributeError" := by
    cases v <;> simp [conv_transform_example, Json.isObj] at hv ⊢
  have hs : std_transform_example v = .error "AttributeError" := by
    cases v <;> simp [std_transform_example, Json.isObj] at hv ⊢
  refine ⟨hc, hs, ?_, ?_⟩
  · simp [transform_file, hb, hl, hc]
  · simp [transform_file, hb, hl, hs]

/-- C10 witness: the valid non-object line `0` aborts both transformers
at once. -/
theorem transform_nonobject_uncaught_witness :
    conv_transform_example (Json.num 0) = .error "AttributeError"
    ∧ std_transform_example (Json.num 0) = .error "AttributeError"
    ∧ transform_file conv_transform_example loadsDemo ["0"] =
        ([], some "AttributeError")
    ∧ transform_file std_transform_example loadsDemo ["0"] =
        ([], some "AttributeError") :=
  transform_nonobject_uncaught loadsDemo "0" [] (Json.num 0)
    (by decide) rfl rfl
